import Mathlib

/-!
Shallow embedding of the edir user-management script (edir.py) and proofs
about its user-lifecycle actions.

The script manages eDirectory users over LDAP.  We model the directory
client as an oracle (`Client`) that answers each call, and every modelled
function returns a value in `M α`: the outcome (`Except Exc α`, where an
`Exc` is a Python exception escaping the function) together with the list
of external calls issued (`List Call`).

Python-2 specifics that matter and are modelled faithfully:
* `except ldap.LDAPError` catches only `Exc.ldapErr`; `except Exception`
  catches every `Exc`.
* referencing a local variable whose assignment never executed raises
  `UnboundLocalError`/`NameError` (modelled as `Exc.unboundLocal` /
  `Exc.nameError`), e.g. `server` in `create` on the guest path and
  `ldap_result` in `findUser` after a caught search error.
* `d[key]` on a dict without the key raises `KeyError`; `l[0]` on an empty
  list raises `IndexError`.
* dividing two strings (the `/` typo in `create`'s warning for an unknown
  department) raises `TypeError`.
-/

namespace Edir

/-- LDAP search scope; the script only ever uses SCOPE_SUBTREE. -/
inductive SScope
  | base
  | one
  | subtree
deriving DecidableEq, Repr

/-- LDAP modify operation kind (MOD_ADD / MOD_REPLACE / MOD_DELETE). -/
inductive ModOp
  | add
  | replace
  | del
deriving DecidableEq, Repr

/-- One (op, attribute, value) triple passed to modify_s. -/
structure Mod3 where
  op : ModOp
  attr : String
  val : String
deriving DecidableEq, Repr

/-- One external call issued by the script. -/
inductive Call
  | bind
  | search (base : String) (scope : SScope) (filter : String) (attrs : List String)
  | add (dn : String) (attrs : List (String × List String))
  | modify (dn : String) (mods : List Mod3)
  | rename (dn : String) (newrdn : String) (newSuperior : Option String)
  | delete (dn : String)
  | unbind
  | http (url : String)
  | mail (frm : String) (rcpt : String) (subject : String)
deriving DecidableEq, Repr

/-- A Python exception escaping a modelled function. -/
inductive Exc
  | ldapErr
  | nameError
  | keyError
  | indexError
  | typeError
  | unboundLocal
  | ioError
deriving DecidableEq, Repr

instance {ε α : Type} [DecidableEq ε] [DecidableEq α] : DecidableEq (Except ε α) := fun x y =>
  match x, y with
  | .ok a, .ok b =>
    if h : a = b then isTrue (by rw [h]) else isFalse (by intro hh; cases hh; exact h rfl)
  | .error a, .error b =>
    if h : a = b then isTrue (by rw [h]) else isFalse (by intro hh; cases hh; exact h rfl)
  | .ok _, .error _ => isFalse (by intro hh; cases hh)
  | .error _, .ok _ => isFalse (by intro hh; cases hh)

/-- Result of running a modelled fragment: its outcome and the calls it issued. -/
structure M (α : Type) where
  res : Except Exc α
  tr : List Call
deriving DecidableEq, Repr

def M.bind {α β : Type} (x : M α) (f : α → M β) : M β :=
  match x.res with
  | .ok a => ⟨(f a).res, x.tr ++ (f a).tr⟩
  | .error e => ⟨.error e, x.tr⟩

instance : Monad M where
  pure a := ⟨.ok a, []⟩
  bind := M.bind

/-- Emit one external call, succeeding. -/
def emit (c : Call) : M Unit := ⟨.ok (), [c]⟩

/-- Raise a Python exception. -/
def raiseE {α : Type} (e : Exc) : M α := ⟨.error e, []⟩

/-- An entry returned by an LDAP search: dn plus an attribute dict. -/
structure Entry where
  dn : String
  attrs : List (String × List String)
deriving DecidableEq, Repr

/-- Python dict lookup on an attribute dict (None if the key is absent). -/
def lookupAttr (attrs : List (String × List String)) (k : String) : Option (List String) :=
  (attrs.find? (fun p => p.1 == k)).map (fun p => p.2)

/-- The directory/HTTP oracle: how the outside world answers each call.
`searchRes f = none` means the search with filter `f` raises LDAPError;
`some es` is the list of entries it returns.  Booleans say whether the
corresponding mutation succeeds (false = raises LDAPError), and `httpOk`
whether a provisioning HTTP request succeeds (false = raises). -/
structure Client where
  bindOk : Bool
  searchRes : String → Option (List Entry)
  addOk : String → Bool
  modifyOk : String → List Mod3 → Bool
  renameOk : String → Bool
  deleteOk : String → Bool
  httpOk : String → Bool

/-- The constants read from settings.py. -/
structure Config where
  LDAPSERVER : String
  USER : String
  PASSWORD : String
  baseDN : String
  MAILDOMAIN : String
  STUPATTERN : String
  GSTPATTERN : String
  ARUBAPATTERN : String
  STUSERVER : String
  EMPSERVER : String
  SHAREOU : String
  STUDENTOU : String
  GUESTOU : String
  EMPOU : String
  DEPGROUPOU : String
  GeneralMacUsersOU : String
  StuGeneralMacUsers : String
  GuestGeneralMacUsers : String
  EmpGeneralMacUsers : String
  EmpGeneralWSUsers : String
  FROM : String
  TO : String
  MAILSERVER : String
deriving Repr

/-- Boolean contiguous-substring test on character lists (Python `in` on strings). -/
def listInfixOf (p : List Char) : List Char → Bool
  | [] => p.isEmpty
  | c :: t => p.isPrefixOf (c :: t) || listInfixOf p t

/-- Python `p in s` for strings. -/
def pyIn (p s : String) : Bool := listInfixOf p.toList s.toList

/-- Python `s[0:-4]`: the string with its last four characters removed
(empty when the string has at most four characters). -/
def pyDropLast4 (s : String) : String :=
  String.mk (s.toList.take (s.toList.length - 4))

/-- Python `s[1:]`: the string with its first character removed. -/
def pyDropFirst (s : String) : String := String.mk (s.toList.drop 1)

/-- getUserType from edir.py: ordered pattern rules classifying a username. -/
def getUserType (cfg : Config) (username : String) : String :=
  if pyIn cfg.STUPATTERN username then "STU"
  else if cfg.GSTPATTERN == pyDropLast4 username then "GST"
  else "EMP"

/-- Python `lst[i]`: IndexError when out of range. -/
def pyIndex {α : Type} (l : List α) (i : Nat) : M α :=
  match l.get? i with
  | some a => ⟨.ok a, []⟩
  | none => raiseE .indexError

/-- Python `d[k]` on an attribute dict: KeyError when the key is absent. -/
def pyGetKey (attrs : List (String × List String)) (k : String) : M (List String) :=
  match lookupAttr attrs k with
  | some vs => ⟨.ok vs, []⟩
  | none => raiseE .keyError

/-- l.add_s: raises LDAPError when the oracle refuses. -/
def ldapAdd (cl : Client) (dn : String) (attrs : List (String × List String)) : M Unit :=
  ⟨if cl.addOk dn then .ok () else .error .ldapErr, [.add dn attrs]⟩

/-- l.modify_s. -/
def ldapModify (cl : Client) (dn : String) (mods : List Mod3) : M Unit :=
  ⟨if cl.modifyOk dn mods then .ok () else .error .ldapErr, [.modify dn mods]⟩

/-- l.rename_s. -/
def ldapRename (cl : Client) (dn newrdn : String) (newSup : Option String) : M Unit :=
  ⟨if cl.renameOk dn then .ok () else .error .ldapErr, [.rename dn newrdn newSup]⟩

/-- l.delete_s. -/
def ldapDelete (cl : Client) (dn : String) : M Unit :=
  ⟨if cl.deleteOk dn then .ok () else .error .ldapErr, [.delete dn]⟩

/-- l.search_s over the whole base DN with SCOPE_SUBTREE, raising LDAPError
when the oracle answers none. -/
def ldapSearch (cfg : Config) (cl : Client) (filter : String) (attrs : List String) :
    M (List Entry) :=
  ⟨match cl.searchRes filter with
    | some es => .ok es
    | none => .error .ldapErr,
   [.search cfg.baseDN .subtree filter attrs]⟩

/-- urllib.urlopen of a provisioning URL. -/
def httpGet (cl : Client) (url : String) : M Unit :=
  ⟨if cl.httpOk url then .ok () else .error .ioError, [.http url]⟩

/-- ldapConnect: initialize + simple_bind_s inside try/except LDAPError;
returns the connection, or False when the bind failed. -/
def ldapConnect (cl : Client) : M Bool := ⟨.ok cl.bindOk, [Call.bind]⟩

/-- sendMail: builds the message and sends it; any failure is swallowed
inside the function, so it never raises. -/
def sendMail (cfg : Config) (subject : String) : M Unit :=
  emit (.mail cfg.FROM cfg.TO subject)

/-- findUser: searches for cn=<username> over the whole base DN with subtree
scope; existing iff the result list is nonempty.  The try block only covers
the search; after a caught LDAPError the code falls through to
`len(ldap_result)` with `ldap_result` unbound, raising a NameError that
escapes the function. -/
def findUser (cfg : Config) (cl : Client) (username : String) : M Bool :=
  ⟨match cl.searchRes ("cn=" ++ username) with
    | none => .error .nameError
    | some res => .ok (if res.length == 0 then false else true),
   [.search cfg.baseDN .subtree ("cn=" ++ username) ["dn"]]⟩

/-- userDisabled: fetches loginDisabled for cn=<username>; disabled iff the
first value of the attribute equals the exact string TRUE.  As in findUser,
a failed search leaves `ldap_result` unbound (NameError); an empty result
list raises IndexError and a missing attribute raises KeyError, all
escaping the function. -/
def userDisabled (cfg : Config) (cl : Client) (username : String) : M Bool :=
  ⟨match cl.searchRes ("cn=" ++ username) with
    | none => .error .nameError
    | some res =>
      match res with
      | [] => .error .indexError
      | e :: _ =>
        match lookupAttr e.attrs "loginDisabled" with
        | none => .error .keyError
        | some vals =>
          match vals with
          | [] => .error .indexError
          | v :: _ => .ok (v == "TRUE"),
   [.search cfg.baseDN .subtree ("cn=" ++ username) ["loginDisabled"]]⟩

/-- buildDN: the user's dn from the category-specific container. -/
def buildDN (cfg : Config) (username : String) : String :=
  if getUserType cfg username == "STU" then "cn=" ++ username ++ cfg.STUDENTOU
  else if getUserType cfg username == "GST" then "cn=" ++ username ++ cfg.GUESTOU
  else "cn=" ++ username ++ cfg.EMPOU

/-- lookupGroup: the fixed primO -> departmental-group table. -/
def lookupGroup (cfg : Config) (ou : String) : Option String :=
  let deptGroups : List (String × String) :=
    [("Art", "Art"), ("History", "History"), ("Art History", "ArtHistory"),
     ("Chemistry", "Chemistry"), ("Cinema", "Cinema"),
     ("Classical Studies", "Classics"), ("Human Resources", "HumanResources"),
     ("Information Technology Services", "ITS"), ("Theatre", "Theatre")]
  match (deptGroups.find? (fun p => p.1 == ou)).map (fun p => p.2) with
  | some g => some ("cn=" ++ g ++ cfg.DEPGROUPOU)
  | none => none

/-- addMember: modify the group inside try/except LDAPError; a failure is
logged and swallowed, so the function never raises. -/
def addMember (cl : Client) (gdn dn : String) : M Unit :=
  match ldapModify cl gdn [⟨.add, "member", dn⟩, ⟨.add, "equivalentToMe", dn⟩] with
  | ⟨.error .ldapErr, tr⟩ => ⟨.ok (), tr⟩
  | r => r

/-- Run a body whose LDAPError is swallowed by a surrounding

try/except ldap.LDAPError handler; other exceptions pass through. -/
def swallowLdap (body : M Unit) : M Unit :=
  match body with
  | ⟨.error .ldapErr, tr⟩ => ⟨.ok (), tr⟩
  | r => r

/-- The loop over memberUid values in delMemberUid. -/
def delMemberLoop (cl : Client) (gdn username : String) : List String → M Unit
  | [] => ⟨.ok (), []⟩
  | m :: rest =>
    if username == m then
      M.bind (ldapModify cl gdn [⟨.del, "memberUid", m⟩])
        (fun _ => delMemberLoop cl gdn username rest)
    else delMemberLoop cl gdn username rest

/-- delMemberUid: search the group then delete matching memberUid values.
The try catches only LDAPError; a missing first result (IndexError) or a
missing memberUid key (KeyError) escapes the function. -/
def delMemberUid (cfg : Config) (cl : Client) (gn gdn username : String) : M Unit :=
  swallowLdap (do
    let res ← ldapSearch cfg cl ("cn=" ++ gn) ["memberUid"]
    let e ← pyIndex res 0
    let vals ← pyGetKey e.attrs "memberUid"
    delMemberLoop cl gdn username vals)

/-- Sequence an already-recorded trace before a continuation. -/
def seqTr {α : Type} (tr : List Call) (m : M α) : M α := ⟨m.res, tr ++ m.tr⟩

/-- try/except ldap.LDAPError with a returning handler and no generic
handler (create's mutation try): LDAPError yields the handler's result
string; any other exception escapes the function. -/
def tryLdapEsc (body : M Unit) (onLdap : String) (cont : M String) : M String :=
  match body with
  | ⟨.ok _, tr⟩ => seqTr tr cont
  | ⟨.error .ldapErr, tr⟩ => ⟨.ok onLdap, tr⟩
  | ⟨.error e, tr⟩ => ⟨.error e, tr⟩

/-- try/except Exception whose handler assigns a result but does not
return (create's provisioning try): control always falls through to the
continuation. -/
def tryCont (body : M Unit) (cont : M String) : M String :=
  match body with
  | ⟨_, tr⟩ => seqTr tr cont

/-- update's rename try: an early return inside the try yields that string;
LDAPError returns the handler string; except Exception assigns a dead
result and falls through to the continuation. -/
def tryRename (body : M (Option String)) (onLdap : String) (cont : M String) : M String :=
  match body with
  | ⟨.ok (some s), tr⟩ => ⟨.ok s, tr⟩
  | ⟨.ok none, tr⟩ => seqTr tr cont
  | ⟨.error .ldapErr, tr⟩ => ⟨.ok onLdap, tr⟩
  | ⟨.error _, tr⟩ => seqTr tr cont

/-- update's attribute try and delete's try: LDAPError returns the handler
string; except Exception assigns a dead result and falls through. -/
def tryFall (body : M Unit) (onLdap : String) (cont : M String) : M String :=
  match body with
  | ⟨.ok _, tr⟩ => seqTr tr cont
  | ⟨.error .ldapErr, tr⟩ => ⟨.ok onLdap, tr⟩
  | ⟨.error _, tr⟩ => seqTr tr cont

/-- archive's try: an early return inside the try yields that string;
LDAPError returns the handler string; no generic handler. -/
def tryArch (body : M (Option String)) (onLdap : String) (cont : M String) : M String :=
  match body with
  | ⟨.ok (some s), tr⟩ => ⟨.ok s, tr⟩
  | ⟨.ok none, tr⟩ => seqTr tr cont
  | ⟨.error .ldapErr, tr⟩ => ⟨.ok onLdap, tr⟩
  | ⟨.error e, tr⟩ => ⟨.error e, tr⟩

/-- First parameter with an empty value, as the per-parameter loop at the
top of create/update finds it (the source iterates a Python-2 locals()
dict in unspecified order; the model fixes signature order). -/
def firstEmpty : List (String × String) → Option String
  | [] => none
  | (n, v) :: rest => if v == "" then some n else firstEmpty rest

/-- The result string for a missing parameter. -/
def missingMsg (nm : String) : String :=
  "ERROR: Missing an expected input value for " ++ nm ++ " in input file"

/-- create's parameters with their Python names, in signature order. -/
def createParams (username loginDisabled uidNumber gidNumber givenName fullName sn
    employeeType dNumber x500UniqueIdentifier ou businessCategory userPassword
    description : String) : List (String × String) :=
  [("username", username), ("loginDisabled", loginDisabled), ("uidNumber", uidNumber),
   ("gidNumber", gidNumber), ("givenName", givenName), ("fullName", fullName),
   ("sn", sn), ("employeeType", employeeType), ("dNumber", dNumber),
   ("x500UniqueIdentifier", x500UniqueIdentifier), ("ou", ou),
   ("businessCategory", businessCategory), ("userPassword", userPassword),
   ("description", description)]

/-- The attribute dict built for a new user (body of the add), given the
bound value of `server` (the ndsHomeDirectory pointer is set only when it
is truthy, i.e. nonempty). -/
def createAttrs (cfg : Config) (username loginDisabled uidNumber gidNumber givenName
    fullName sn employeeType dNumber x500UniqueIdentifier ou businessCategory
    userPassword description server : String) : List (String × List String) :=
  [("objectclass", ["top", "person", "organizationalPerson", "inetOrgPerson",
      "ndsLoginProperties", "posixAccount"]),
   ("cn", [username]), ("userPassword", [userPassword]),
   ("description", [description]), ("loginDisabled", [loginDisabled]),
   ("givenName", [givenName]), ("fullName", [fullName]), ("sn", [sn]),
   ("uid", [username]), ("mail", [username ++ cfg.MAILDOMAIN]),
   ("uidNumber", [uidNumber]), ("gidNumber", [gidNumber]),
   ("homeDirectory", ["/Users/" ++ username]), ("employeeType", [employeeType]),
   ("employeeNumber", [pyDropFirst dNumber]), ("telexNumber", [dNumber]),
   ("ou", [ou]), ("x500UniqueIdentifier", [x500UniqueIdentifier]),
   ("businessCategory", [businessCategory])]
  ++ (if server == "" then []
      else [("ndsHomeDirectory", ["cn=" ++ server ++ cfg.SHAREOU ++ "#0#" ++ username])])
  ++ [("Language", ["ENGLISH"]), ("passwordUniqueRequired", ["TRUE"]),
      ("passwordRequired", ["TRUE"]), ("passwordMinimumLength", ["5"]),
      ("passwordAllowChange", ["TRUE"]), ("loginGraceRemaining", ["3"]),
      ("loginGraceLimit", ["3"])]

/-- The loop adding the user to each group: two attribute adds on the user,
then addMember on the group. -/
def addGroups (cl : Client) (dn : String) : List String → M Unit
  | [] => ⟨.ok (), []⟩
  | g :: rest => do
    ldapModify cl dn [⟨.add, "securityEquals", g⟩, ⟨.add, "groupMembership", g⟩]
    addMember cl g dn
    addGroups cl dn rest

/-- The directory mutations of create after the entry add: group adds plus
the memberUid hack on the general group. -/
def createMutateTail (cl : Client) (dn username gdn : String) (groups : List String)
    (attrs : List (String × List String)) : M Unit := do
  ldapAdd cl dn attrs
  addGroups cl dn groups
  ldapModify cl gdn [⟨.add, "memberUid", username⟩]
  emit .unbind

/-- The body of create's mutation try block.  On the guest path the local
`server` is never assigned, so the later `if server:` raises
UnboundLocalError before any directory mutation; on the employee path with
an unrecognized department the warning line divides two strings, raising
TypeError.  Neither is an LDAPError, so both escape create. -/
def createMutate (cfg : Config) (cl : Client) (username loginDisabled uidNumber
    gidNumber givenName fullName sn employeeType dNumber x500UniqueIdentifier ou
    businessCategory userPassword description : String) : M Unit :=
  let dn := buildDN cfg username
  let userType := getUserType cfg username
  if userType == "STU" then
    let gdn := "cn=" ++ cfg.StuGeneralMacUsers ++ cfg.GeneralMacUsersOU
    createMutateTail cl dn username gdn [gdn]
      (createAttrs cfg username loginDisabled uidNumber gidNumber givenName fullName
        sn employeeType dNumber x500UniqueIdentifier ou businessCategory userPassword
        description cfg.STUSERVER)
  else if userType == "GST" then raiseE .unboundLocal
  else
    let gdn := "cn=" ++ cfg.EmpGeneralMacUsers ++ cfg.GeneralMacUsersOU
    let gdn1 := "cn=" ++ cfg.EmpGeneralWSUsers ++ cfg.GeneralMacUsersOU
    match lookupGroup cfg ou with
    | some deptGroup =>
      createMutateTail cl dn username gdn [gdn, gdn1, deptGroup]
        (createAttrs cfg username loginDisabled uidNumber gidNumber givenName fullName
          sn employeeType dNumber x500UniqueIdentifier ou businessCategory userPassword
          description cfg.EMPSERVER)
    | none => raiseE .typeError

/-- The storage-provisioning HTTP triggers fired after a successful create. -/
def provision (cl : Client) (userType username ou : String) : M Unit :=
  if userType == "STU" then do
    httpGet cl ("http://studentserver.domain.edu/cgi-bin/getspace.pl?username=" ++ username)
    httpGet cl ("http://fileserver.domain.edu/cgi-bin/getspace.pl?username=" ++ username)
    httpGet cl ("http://mediaserver.domain.edu/cgi-bin/getspace.pl?username=" ++ username)
  else if userType == "GST" then ⟨.ok (), []⟩
  else do
    httpGet cl ("http://empserver.domain.edu/cgi-bin/getspace.pl?username=" ++ username)
    httpGet cl ("http://fileserver.domain.edu/cgi-bin/getspace.pl?username="
      ++ username ++ ":" ++ ou)
    httpGet cl ("http://mediaserver.domain.edu/cgi-bin/getspace.pl?username=" ++ username)

/-- create from edir.py. -/
def create (cfg : Config) (cl : Client) (username loginDisabled uidNumber gidNumber
    givenName fullName sn employeeType dNumber x500UniqueIdentifier ou
    businessCategory userPassword description : String) : M String :=
  match firstEmpty (createParams username loginDisabled uidNumber gidNumber givenName
      fullName sn employeeType dNumber x500UniqueIdentifier ou businessCategory
      userPassword description) with
  | some nm => ⟨.ok (missingMsg nm), []⟩
  | none => do
    let conn ← ldapConnect cl
    if conn == false then pure "ERROR: unable to connect to LDAP server"
    else do
      let ex ← findUser cfg cl username
      if ex then pure "ERROR: username already taken!"
      else
        tryLdapEsc
          (createMutate cfg cl username loginDisabled uidNumber gidNumber givenName
            fullName sn employeeType dNumber x500UniqueIdentifier ou businessCategory
            userPassword description)
          "ERROR: Could not create eDir user or update groups"
          (tryCont (provision cl (getUserType cfg username) username ou)
            ⟨.ok "SUCCESS: User added to eDir", []⟩)

/-- update's parameters with their Python names, in signature order. -/
def updateParams (username newusername loginDisabled uidNumber gidNumber givenName
    fullName sn employeeType dNumber x500UniqueIdentifier ou businessCategory
    description : String) : List (String × String) :=
  [("username", username), ("newusername", newusername),
   ("loginDisabled", loginDisabled), ("uidNumber", uidNumber),
   ("gidNumber", gidNumber), ("givenName", givenName), ("fullName", fullName),
   ("sn", sn), ("employeeType", employeeType), ("dNumber", dNumber),
   ("x500UniqueIdentifier", x500UniqueIdentifier), ("ou", ou),
   ("businessCategory", businessCategory), ("description", description)]

/-- The replace-style modification list of update (passwords untouched),
ending with the add of the new businessCategory value. -/
def updateModList (cfg : Config) (newusername loginDisabled uidNumber gidNumber
    givenName fullName sn employeeType dNumber x500UniqueIdentifier ou
    businessCategory description : String) : List Mod3 :=
  [⟨.replace, "description", description⟩,
   ⟨.replace, "loginDisabled", loginDisabled⟩,
   ⟨.replace, "givenName", givenName⟩,
   ⟨.replace, "fullName", fullName⟩,
   ⟨.replace, "sn", sn⟩,
   ⟨.replace, "uid", newusername⟩,
   ⟨.replace, "mail", newusername ++ cfg.MAILDOMAIN⟩,
   ⟨.replace, "uidNumber", uidNumber⟩,
   ⟨.replace, "gidNumber", gidNumber⟩,
   ⟨.replace, "homeDirectory", "/Users/" ++ newusername⟩,
   ⟨.replace, "employeeType", employeeType⟩,
   ⟨.replace, "employeeNumber", pyDropFirst dNumber⟩,
   ⟨.replace, "telexNumber", dNumber⟩,
   ⟨.replace, "ou", ou⟩,
   ⟨.replace, "x500UniqueIdentifier", x500UniqueIdentifier⟩,
   ⟨.add, "businessCategory", businessCategory⟩]

/-- The loop deleting every businessCategory value matching ARUBAPATTERN. -/
def delAruba (cfg : Config) (cl : Client) (dn : String) : List String → M Unit
  | [] => ⟨.ok (), []⟩
  | v :: rest =>
    if pyIn cfg.ARUBAPATTERN v then do
      ldapModify cl dn [⟨.del, "businessCategory", v⟩]
      delAruba cfg cl dn rest
    else delAruba cfg cl dn rest

/-- The body of update's attribute try block: fetch businessCategory values
(the first result's dict entry; IndexError/KeyError escape to the generic
handler), delete the Aruba-marked ones, then apply the replace list. -/
def updPhase2Body (cfg : Config) (cl : Client) (newusername loginDisabled uidNumber
    gidNumber givenName fullName sn employeeType dNumber x500UniqueIdentifier ou
    businessCategory description : String) : M Unit := do
  let res ← ldapSearch cfg cl ("cn=" ++ newusername) ["businessCategory"]
  let e ← pyIndex res 0
  let vals ← pyGetKey e.attrs "businessCategory"
  delAruba cfg cl (buildDN cfg newusername) vals
  ldapModify cl (buildDN cfg newusername)
    (updateModList cfg newusername loginDisabled uidNumber gidNumber givenName
      fullName sn employeeType dNumber x500UniqueIdentifier ou businessCategory
      description)
  emit .unbind

/-- update's attribute phase: LDAPError returns the update error; a generic
exception assigns a dead result and falls through to the Success string. -/
def updPhase2 (cfg : Config) (cl : Client) (newusername loginDisabled uidNumber
    gidNumber givenName fullName sn employeeType dNumber x500UniqueIdentifier ou
    businessCategory description : String) : M String :=
  tryFall
    (updPhase2Body cfg cl newusername loginDisabled uidNumber gidNumber givenName
      fullName sn employeeType dNumber x500UniqueIdentifier ou businessCategory
      description)
    "ERROR: Could not update eDir user"
    ⟨.ok "SUCCESS: User updated in eDir", []⟩

/-- The body of update's rename try block. -/
def renameBody (cfg : Config) (cl : Client) (username newusername userType : String) :
    M (Option String) := do
  let ex ← findUser cfg cl newusername
  if ex then pure (some "ERROR: username already taken!")
  else do
    ldapRename cl (buildDN cfg username) ("cn=" ++ newusername) none
    let gn := if userType == "STU" then cfg.StuGeneralMacUsers
      else if userType == "GST" then cfg.GuestGeneralMacUsers
      else cfg.EmpGeneralMacUsers
    let gdn := "cn=" ++ gn ++ cfg.GeneralMacUsersOU
    ldapModify cl gdn [⟨.add, "memberUid", newusername⟩]
    delMemberUid cfg cl gn gdn username
    pure none

/-- update from edir.py. -/
def update (cfg : Config) (cl : Client) (username newusername loginDisabled uidNumber
    gidNumber givenName fullName sn employeeType dNumber x500UniqueIdentifier ou
    businessCategory description : String) : M String :=
  match firstEmpty (updateParams username newusername loginDisabled uidNumber
      gidNumber givenName fullName sn employeeType dNumber x500UniqueIdentifier ou
      businessCategory description) with
  | some nm => ⟨.ok (missingMsg nm), []⟩
  | none => do
    let conn ← ldapConnect cl
    if conn == false then pure "ERROR: unable to connect to LDAP server"
    else do
      let ex ← findUser cfg cl username
      if ex == false then pure "ERROR: user could not be found!"
      else
        if username == newusername then
          updPhase2 cfg cl newusername loginDisabled uidNumber gidNumber givenName
            fullName sn employeeType dNumber x500UniqueIdentifier ou businessCategory
            description
        else if getUserType cfg username == getUserType cfg newusername then
          tryRename (renameBody cfg cl username newusername (getUserType cfg username))
            "ERROR: Could not rename eDir user"
            (do
              sendMail cfg ("eDir user renamed: " ++ buildDN cfg username ++ " to "
                ++ newusername)
              updPhase2 cfg cl newusername loginDisabled uidNumber gidNumber givenName
                fullName sn employeeType dNumber x500UniqueIdentifier ou
                businessCategory description)
        else pure "ERROR: can't rename users across different OUs"

/-- The body of archive's try block: guests are never archived; otherwise
the entry is moved into the category's _Archive container. -/
def archBody (cfg : Config) (cl : Client) (username : String) : M (Option String) :=
  let dn := buildDN cfg username
  let userType := getUserType cfg username
  if userType == "STU" then do
    ldapRename cl dn ("cn=" ++ username) (some ("ou=_Archive" ++ cfg.STUDENTOU))
    emit .unbind
    pure none
  else if userType == "GST" then ⟨.ok (some "ERROR: we do not archive guest accounts"), []⟩
  else do
    ldapRename cl dn ("cn=" ++ username) (some ("ou=_Archive" ++ cfg.EMPOU))
    emit .unbind
    pure none

/-- archive from edir.py. -/
def archive (cfg : Config) (cl : Client) (username : String) : M String :=
  if username == "" then ⟨.ok (missingMsg "username"), []⟩
  else do
    let conn ← ldapConnect cl
    if conn == false then pure "ERROR: unable to connect to LDAP server"
    else do
      let ex ← findUser cfg cl username
      if ex == false then pure "ERROR: user could not be found!"
      else do
        let dis ← userDisabled cfg cl username
        if dis == false then pure "ERROR: user is not disabled!"
        else
          tryArch (archBody cfg cl username) "ERROR: Could not move eDir user"
            ⟨.ok "SUCCESS: User archived in eDir", []⟩

/-- The body of delete's try block: delete the entry, then clean the
memberUid value on the category's general group. -/
def delBody (cfg : Config) (cl : Client) (username : String) : M Unit := do
  let dn := buildDN cfg username
  ldapDelete cl dn
  let userType := getUserType cfg username
  let gn := if userType == "STU" then cfg.StuGeneralMacUsers
    else if userType == "GST" then cfg.GuestGeneralMacUsers
    else cfg.EmpGeneralMacUsers
  let gdn := "cn=" ++ gn ++ cfg.GeneralMacUsersOU
  delMemberUid cfg cl gn gdn username
  emit .unbind

/-- delete from edir.py.  After the try block (whose generic handler falls
through), the Success string is set and the deletion notification mail is
sent. -/
def delete (cfg : Config) (cl : Client) (username : String) : M String :=
  if username == "" then ⟨.ok (missingMsg "username"), []⟩
  else do
    let conn ← ldapConnect cl
    if conn == false then pure "ERROR: unable to connect to LDAP server"
    else do
      let ex ← findUser cfg cl username
      if ex == false then pure "ERROR: user could not be found!"
      else do
        let dis ← userDisabled cfg cl username
        if dis == false then pure "ERROR: user is not disabled!"
        else
          tryFall (delBody cfg cl username) "ERROR: Could not delete eDir user"
            (do
              sendMail cfg ("eDir user deleted: " ++ buildDN cfg username)
              pure "SUCCESS: User deleted from eDir")

/-- One row of the input batch (all values read as strings by main). -/
structure Row where
  action : String
  username : String
  newusername : String
  loginDisabled : String
  uidNumber : String
  gidNumber : String
  givenName : String
  fullName : String
  sn : String
  employeeType : String
  DNumber : String
  x500UniqueIdentifier : String
  primO : String
  businessCategory : String
  userPassword : String
  description : String
deriving Repr

/-- The dispatch on row["action"] inside main's loop. -/
def processRow (cfg : Config) (cl : Client) (r : Row) : M String :=
  if r.action == "create" then
    create cfg cl r.username r.loginDisabled r.uidNumber r.gidNumber r.givenName
      r.fullName r.sn r.employeeType r.DNumber r.x500UniqueIdentifier r.primO
      r.businessCategory r.userPassword r.description
  else if r.action == "update" then
    update cfg cl r.username r.newusername r.loginDisabled r.uidNumber r.gidNumber
      r.givenName r.fullName r.sn r.employeeType r.DNumber r.x500UniqueIdentifier
      r.primO r.businessCategory r.description
  else if r.action == "delete" then delete cfg cl r.username
  else if r.action == "archive" then archive cfg cl r.username
  else ⟨.ok "ERROR: Unrecognized action", []⟩

/-- main's loop over the batch: each row's result is written to the output
records; an exception escaping an action is caught by main's outer handler,
which aborts the loop, so the current row's record and all later rows are
dropped. -/
def runBatch (cfg : Config) (cl : Client) : List Row → List (String × String × String)
  | [] => []
  | r :: rest =>
    match processRow cfg cl r with
    | ⟨.ok res, _⟩ => (r.action, r.username, res) :: runBatch cfg cl rest
    | ⟨.error _, _⟩ => []

/-- A concrete settings assignment used for concrete runs. -/
def cfg0 : Config where
  LDAPSERVER := "ldaps://edir.domain.edu:636/"
  USER := "cn=admin,o=DA"
  PASSWORD := "secret"
  baseDN := "o=DA"
  MAILDOMAIN := "@domain.edu"
  STUPATTERN := "_"
  GSTPATTERN := "gst"
  ARUBAPATTERN := "Aruba-User-Role"
  STUSERVER := "stufs"
  EMPSERVER := "empfs"
  SHAREOU := ",ou=Servers,o=DA"
  STUDENTOU := ",ou=Students,o=DA"
  GUESTOU := ",ou=Visitors,o=DA"
  EMPOU := ",ou=Employees,o=DA"
  DEPGROUPOU := "_DEPARTMENT,ou=Departments,o=DA"
  GeneralMacUsersOU := ",ou=Resources,o=DA"
  StuGeneralMacUsers := "Stu_GeneralMac_Users"
  GuestGeneralMacUsers := "Gst_GeneralMac_Users"
  EmpGeneralMacUsers := "Emp_GeneralMac_Users"
  EmpGeneralWSUsers := "Emp_GeneralWS_Users"
  FROM := "noreply@domain.edu"
  TO := "ops@domain.edu"
  MAILSERVER := "mail.domain.edu"

/-- A directory in which no user exists and every operation succeeds. -/
def clEmpty : Client where
  bindOk := true
  searchRes := fun _ => some []
  addOk := fun _ => true
  modifyOk := fun _ _ => true
  renameOk := fun _ => true
  deleteOk := fun _ => true
  httpOk := fun _ => true

/-- Like clEmpty, but every provisioning HTTP request fails. -/
def clHttpFail : Client where
  bindOk := true
  searchRes := fun _ => some []
  addOk := fun _ => true
  modifyOk := fun _ _ => true
  renameOk := fun _ => true
  deleteOk := fun _ => true
  httpOk := fun _ => false

/-- A directory holding the disabled employee bob, whose general group
entry has no memberUid attribute; every operation succeeds. -/
def clBobNoUid : Client where
  bindOk := true
  searchRes := fun f =>
    if f == "cn=bob" then
      some [⟨"cn=bob,ou=Employees,o=DA", [("loginDisabled", ["TRUE"])]⟩]
    else if f == "cn=Emp_GeneralMac_Users" then
      some [⟨"cn=Emp_GeneralMac_Users,ou=Resources,o=DA", []⟩]
    else some []
  addOk := fun _ => true
  modifyOk := fun _ _ => true
  renameOk := fun _ => true
  deleteOk := fun _ => true
  httpOk := fun _ => true

/-- A directory where every search for bob raises LDAPError. -/
def clSearchFail : Client where
  bindOk := true
  searchRes := fun f => if f == "cn=bob" then none else some []
  addOk := fun _ => true
  modifyOk := fun _ _ => true
  renameOk := fun _ => true
  deleteOk := fun _ => true
  httpOk := fun _ => true

/-- A directory holding the employee bob with an Aruba role value plus an
unrelated businessCategory value; every operation succeeds. -/
def clBobAruba : Client where
  bindOk := true
  searchRes := fun f =>
    if f == "cn=bob" then
      some [⟨"cn=bob,ou=Employees,o=DA",
        [("businessCategory", ["Aruba-User-Role = \"staff\"", "unrelated=1"]),
         ("loginDisabled", ["FALSE"])]⟩]
    else some []
  addOk := fun _ => true
  modifyOk := fun _ _ => true
  renameOk := fun _ => true
  deleteOk := fun _ => true
  httpOk := fun _ => true

/-- A directory whose only entry with cn=printer1 is a non-user object in
an unrelated container, plus the lowercase-disabled employee carol. -/
def clOddObjects : Client where
  bindOk := true
  searchRes := fun f =>
    if f == "cn=printer1" then
      some [⟨"cn=printer1,ou=Printers,ou=Resources,o=DA", [("objectclass", ["printQueue"])]⟩]
    else if f == "cn=carol" then
      some [⟨"cn=carol,ou=Employees,o=DA", [("loginDisabled", ["true"])]⟩]
    else some []
  addOk := fun _ => true
  modifyOk := fun _ _ => true
  renameOk := fun _ => true
  deleteOk := fun _ => true
  httpOk := fun _ => true

/-- A delete request for bob. -/
def rowDelBob : Row where
  action := "delete"
  username := "bob"
  newusername := "bob"
  loginDisabled := "False"
  uidNumber := "1"
  gidNumber := "1"
  givenName := "Bob"
  fullName := "Bob B"
  sn := "B"
  employeeType := "ADM"
  DNumber := "D0123"
  x500UniqueIdentifier := "xid"
  primO := "Art"
  businessCategory := "bc"
  userPassword := "pw"
  description := "note"

/-- A row with an unrecognized action keyword. -/
def rowBadAction : Row where
  action := "frobnicate"
  username := "x"
  newusername := "x"
  loginDisabled := "False"
  uidNumber := "1"
  gidNumber := "1"
  givenName := "X"
  fullName := "X X"
  sn := "X"
  employeeType := "ADM"
  DNumber := "D0123"
  x500UniqueIdentifier := "xid"
  primO := "Art"
  businessCategory := "bc"
  userPassword := "pw"
  description := "note"

/-! ### Helper lemmas -/

@[simp] theorem bind_eq {α β : Type} (x : M α) (f : α → M β) :
    (x >>= f) = M.bind x f := rfl

@[simp] theorem pure_eq {α : Type} (a : α) : (pure a : M α) = ⟨.ok a, []⟩ := rfl

@[simp] theorem M_bind_mk_ok {α β : Type} (a : α) (tr : List Call) (f : α → M β) :
    M.bind ⟨.ok a, tr⟩ f = ⟨(f a).res, tr ++ (f a).tr⟩ := rfl

@[simp] theorem M_bind_mk_err {α β : Type} (e : Exc) (tr : List Call) (f : α → M β) :
    M.bind ⟨.error e, tr⟩ f = ⟨.error e, tr⟩ := rfl

theorem listInfixOf_iff (p : List Char) :
    ∀ s : List Char, listInfixOf p s = true ↔ p <:+: s := by
  intro s
  induction s with
  | nil =>
    simp [listInfixOf, List.isEmpty_iff, List.infix_nil]
  | cons c t ih =>
    simp [listInfixOf, ih, List.infix_cons_iff, List.isPrefixOf_iff_prefix]

theorem firstEmpty_mem {nm : String} :
    ∀ l : List (String × String), firstEmpty l = some nm → (nm, "") ∈ l := by
  intro l
  induction l with
  | nil => intro h; simp [firstEmpty] at h
  | cons p rest ih =>
    intro h
    by_cases hp : p.2 = ""
    · simp only [firstEmpty, hp] at h
      simp only [beq_self_eq_true, if_true] at h
      cases h
      have hp1 : (p.1, "") = p := by
        cases p
        simp_all
      rw [hp1]
      exact List.mem_cons_self _ _
    · simp only [firstEmpty] at h
      rw [if_neg (by simp [hp])] at h
      exact List.mem_cons_of_mem _ (ih h)

theorem firstEmpty_eq_none :
    ∀ l : List (String × String), (∀ p ∈ l, p.2 ≠ "") → firstEmpty l = none := by
  intro l
  induction l with
  | nil => intro _; rfl
  | cons p rest ih =>
    intro h
    have hp : p.2 ≠ "" := h p (List.mem_cons_self p rest)
    simp only [firstEmpty]
    rw [if_neg (by simp [hp])]
    exact ih (fun q hq => h q (List.mem_cons_of_mem _ hq))

theorem firstEmpty_isSome :
    ∀ l : List (String × String), ∀ p ∈ l, p.2 = "" → ∃ nm, firstEmpty l = some nm := by
  intro l
  induction l with
  | nil => intro p hp; simp at hp
  | cons q rest ih =>
    intro p hp hemp
    by_cases hq : q.2 = ""
    · exact ⟨q.1, by simp [firstEmpty, hq]⟩
    · rcases List.mem_cons.mp hp with hp1 | hp1
      · exact absurd (hp1 ▸ hemp) hq
      · rcases ih p hp1 hemp with ⟨nm, hnm⟩
        exact ⟨nm, by simp only [firstEmpty]; rw [if_neg (by simp [hq])]; exact hnm⟩

theorem delAruba_all_ok (cfg : Config) (cl : Client) (dn : String)
    (hmod : ∀ d m, cl.modifyOk d m = true) :
    ∀ vals : List String, delAruba cfg cl dn vals =
      ⟨.ok (), (vals.filter (fun v => pyIn cfg.ARUBAPATTERN v)).map
        (fun v => Call.modify dn [⟨.del, "businessCategory", v⟩])⟩ := by
  intro vals
  induction vals with
  | nil => rfl
  | cons v rest ih =>
    by_cases hv : pyIn cfg.ARUBAPATTERN v = true
    · simp [delAruba, hv, ldapModify, hmod, M.bind, ih]
    · simp [delAruba, hv, ih]

/-! ### Claim theorems -/

/-- C6: for every Create action in which any required field is the empty
string, the returned result is an Error naming an offending empty field,
and no directory call of any kind (connect, search, or mutation) is
attempted: the call trace is empty. -/
theorem c6_create_empty_field_no_calls (cfg : Config) (cl : Client)
    (username loginDisabled uidNumber gidNumber givenName fullName sn employeeType
      dNumber x500UniqueIdentifier ou businessCategory userPassword description : String)
    (h : ∃ p ∈ createParams username loginDisabled uidNumber gidNumber givenName
      fullName sn employeeType dNumber x500UniqueIdentifier ou businessCategory
      userPassword description, p.2 = "") :
    ∃ nm, (nm, "") ∈ createParams username loginDisabled uidNumber gidNumber givenName
      fullName sn employeeType dNumber x500UniqueIdentifier ou businessCategory
      userPassword description ∧
    create cfg cl username loginDisabled uidNumber gidNumber givenName fullName sn
      employeeType dNumber x500UniqueIdentifier ou businessCategory userPassword
      description =
      ⟨.ok ("ERROR: Missing an expected input value for " ++ nm ++ " in input file"),
       []⟩ := by
  rcases h with ⟨p, hp, hemp⟩
  rcases firstEmpty_isSome _ p hp hemp with ⟨nm, hnm⟩
  refine ⟨nm, firstEmpty_mem _ hnm, ?_⟩
  simp only [create, hnm, missingMsg]

/-- C6 witness: a concrete create with an empty sn field. -/
theorem c6_witness :
    ∃ nm, (nm, "") ∈ createParams "bob" "False" "1" "1" "John" "John B" "" "ADM"
      "D0123" "xid" "Art" "bc" "pw" "note" ∧
    create cfg0 clEmpty "bob" "False" "1" "1" "John" "John B" "" "ADM" "D0123" "xid"
      "Art" "bc" "pw" "note" =
      ⟨.ok ("ERROR: Missing an expected input value for " ++ nm ++ " in input file"),
       []⟩ :=
  c6_create_empty_field_no_calls cfg0 clEmpty "bob" "False" "1" "1" "John" "John B"
    "" "ADM" "D0123" "xid" "Art" "bc" "pw" "note"
    ⟨("sn", ""), by decide, rfl⟩

/-- C8: the classifier is a total function of the username: a substring
occurrence of the student pattern yields STU (taking precedence over the
guest rule); otherwise equality of the guest pattern with the username
minus its last four characters yields GST; otherwise EMP. -/
theorem c8_classifier_rules (cfg : Config) (u : String) :
    (cfg.STUPATTERN.toList <:+: u.toList → getUserType cfg u = "STU") ∧
    (¬ cfg.STUPATTERN.toList <:+: u.toList → cfg.GSTPATTERN = pyDropLast4 u →
      getUserType cfg u = "GST") ∧
    (¬ cfg.STUPATTERN.toList <:+: u.toList → cfg.GSTPATTERN ≠ pyDropLast4 u →
      getUserType cfg u = "EMP") := by
  refine ⟨?_, ?_, ?_⟩
  · intro h
    simp only [getUserType, pyIn]
    rw [if_pos ((listInfixOf_iff _ _).mpr h)]
  · intro h1 h2
    simp only [getUserType, pyIn]
    rw [if_neg (fun hh => h1 ((listInfixOf_iff _ _).mp hh))]
    rw [if_pos (by simp [h2])]
  · intro h1 h2
    simp only [getUserType, pyIn]
    rw [if_neg (fun hh => h1 ((listInfixOf_iff _ _).mp hh))]
    rw [if_neg (by simp [h2])]

/-- C8 witness: the student pattern wins even when the guest rule would
also match, and a plain name falls through to EMP. -/
theorem c8_witness :
    getUserType cfg0 "ab_c" = "STU" ∧ getUserType cfg0 "gst23ab" = "GST" ∧
    getUserType cfg0 "bob" = "EMP" :=
  ⟨(c8_classifier_rules cfg0 "ab_c").1 (by decide),
   (c8_classifier_rules cfg0 "gst23ab").2.1 (by decide) (by decide),
   (c8_classifier_rules cfg0 "bob").2.2 (by decide) (by decide)⟩

/-- C9: the existence check searches for cn=<username> with subtree scope
over the entire base DN, and any nonempty result list (an entry anywhere
under the base, of any object type) counts as existing; a Create on a
username with such an entry is rejected as already taken. -/
theorem c9_existence_whole_subtree (cfg : Config) (cl : Client) (u : String)
    (es : List Entry) (hs : cl.searchRes ("cn=" ++ u) = some es) :
    findUser cfg cl u = ⟨.ok (!es.isEmpty),
      [.search cfg.baseDN .subtree ("cn=" ++ u) ["dn"]]⟩ ∧
    (es ≠ [] →
      ∀ loginDisabled uidNumber gidNumber givenName fullName sn employeeType dNumber
        x500UniqueIdentifier ou businessCategory userPassword description : String,
        (∀ p ∈ createParams u loginDisabled uidNumber gidNumber givenName fullName sn
          employeeType dNumber x500UniqueIdentifier ou businessCategory userPassword
          description, p.2 ≠ "") →
        cl.bindOk = true →
        (create cfg cl u loginDisabled uidNumber gidNumber givenName fullName sn
          employeeType dNumber x500UniqueIdentifier ou businessCategory userPassword
          description).res = .ok "ERROR: username already taken!") := by
  constructor
  · simp only [findUser, hs]
    congr 1
    cases es <;> simp
  · intro hne loginDisabled uidNumber gidNumber givenName fullName sn employeeType
      dNumber x500UniqueIdentifier ou businessCategory userPassword description
      hfields hbind
    cases es with
    | nil => exact absurd rfl hne
    | cons e tl =>
      simp only [create, firstEmpty_eq_none _ hfields]
      simp [ldapConnect, hbind, findUser, hs, M.bind]

/-- C9 witness: an entry with cn=printer1 that is not a user and sits in an
unrelated container still counts as existing and blocks Create. -/
theorem c9_witness :
    findUser cfg0 clOddObjects "printer1" =
      ⟨.ok true, [.search "o=DA" .subtree "cn=printer1" ["dn"]]⟩ ∧
    (create cfg0 clOddObjects "printer1" "False" "1" "1" "P" "P Q" "Q" "ADM" "D0123"
      "xid" "Art" "bc" "pw" "note").res = .ok "ERROR: username already taken!" := by
  have h := c9_existence_whole_subtree cfg0 clOddObjects "printer1"
    [⟨"cn=printer1,ou=Printers,ou=Resources,o=DA", [("objectclass", ["printQueue"])]⟩]
    rfl
  exact ⟨h.1, h.2 (by decide) "False" "1" "1" "P" "P Q" "Q" "ADM" "D0123" "xid" "Art"
    "bc" "pw" "note" (by decide) rfl⟩

/-- C10: a user counts as disabled exactly when the first value of its
loginDisabled attribute is the exact string TRUE (the boolean returned is
`v == "TRUE"`); with any other value (e.g. other casings) Archive and
Delete return the user-is-not-disabled Error. -/
theorem c10_disabled_iff_exact_TRUE (cfg : Config) (cl : Client) (u : String)
    (e : Entry) (rest : List Entry) (v : String) (vs : List String)
    (hs : cl.searchRes ("cn=" ++ u) = some (e :: rest))
    (ha : lookupAttr e.attrs "loginDisabled" = some (v :: vs)) :
    userDisabled cfg cl u = ⟨.ok (v == "TRUE"),
      [.search cfg.baseDN .subtree ("cn=" ++ u) ["loginDisabled"]]⟩ ∧
    (v ≠ "TRUE" → cl.bindOk = true → u ≠ "" →
      (archive cfg cl u).res = .ok "ERROR: user is not disabled!" ∧
      (delete cfg cl u).res = .ok "ERROR: user is not disabled!") := by
  constructor
  · simp only [userDisabled, hs, ha]
  · intro hv hbind hu
    constructor
    · simp [archive, hu, ldapConnect, hbind, findUser, hs, userDisabled, ha, hv, M.bind]
    · simp [delete, hu, ldapConnect, hbind, findUser, hs, userDisabled, ha, hv, M.bind]

/-- C10 witness: carol's loginDisabled value is the lowercase string true,
so she does not count as disabled and Archive/Delete refuse. -/
theorem c10_witness :
    userDisabled cfg0 clOddObjects "carol" =
      ⟨.ok false, [.search "o=DA" .subtree "cn=carol" ["loginDisabled"]]⟩ ∧
    (archive cfg0 clOddObjects "carol").res = .ok "ERROR: user is not disabled!" ∧
    (delete cfg0 clOddObjects "carol").res = .ok "ERROR: user is not disabled!" := by
  have h := c10_disabled_iff_exact_TRUE cfg0 clOddObjects "carol"
    ⟨"cn=carol,ou=Employees,o=DA", [("loginDisabled", ["true"])]⟩ [] "true" []
    rfl rfl
  have h2 := h.2 (by decide) rfl (by decide)
  exact ⟨h.1, h2.1, h2.2⟩

/-- C5 counterexample: a cross-category Update rename on an existing user
does return the category-mismatch Error, but its call trace is not empty:
a bind and the existence-check search were already issued, refuting the
zero-directory-calls part of the claim. -/
theorem c5_counterexample :
    update cfg0 clBobAruba "bob" "ann_x" "False" "1" "1" "Ann" "Ann A" "A" "ADM"
      "D0123" "xid" "Art" "bc" "note" =
      ⟨.ok "ERROR: can't rename users across different OUs",
       [Call.bind, .search "o=DA" .subtree "cn=bob" ["dn"]]⟩ ∧
    (update cfg0 clBobAruba "bob" "ann_x" "False" "1" "1" "Ann" "Ann A" "A" "ADM"
      "D0123" "xid" "Art" "bc" "note").tr ≠ [] := by
  constructor
  · rfl
  · decide

/-- C5 (amended): a cross-category Update rename on an existing user (all
fields present, bind succeeding) returns the category-mismatch Error and
issues no mutation call: its trace is exactly the bind plus the
existence-check search. -/
theorem c5_cross_category_no_mutation (cfg : Config) (cl : Client)
    (username newusername loginDisabled uidNumber gidNumber givenName fullName sn
      employeeType dNumber x500UniqueIdentifier ou businessCategory description : String)
    (hfields : ∀ p ∈ updateParams username newusername loginDisabled uidNumber
      gidNumber givenName fullName sn employeeType dNumber x500UniqueIdentifier ou
      businessCategory description, p.2 ≠ "")
    (hbind : cl.bindOk = true)
    (es : List Entry) (hs : cl.searchRes ("cn=" ++ username) = some es) (hne : es ≠ [])
    (htype : getUserType cfg username ≠ getUserType cfg newusername) :
    update cfg cl username newusername loginDisabled uidNumber gidNumber givenName
      fullName sn employeeType dNumber x500UniqueIdentifier ou businessCategory
      description =
      ⟨.ok "ERROR: can't rename users across different OUs",
       [Call.bind, .search cfg.baseDN .subtree ("cn=" ++ username) ["dn"]]⟩ := by
  have hneq : username ≠ newusername := fun h => htype (h ▸ rfl)
  cases es with
  | nil => exact absurd rfl hne
  | cons e tl =>
    simp only [update, firstEmpty_eq_none _ hfields]
    simp [ldapConnect, hbind, findUser, hs, M.bind, hneq, htype]

/-- C5 witness: the amended statement at the concrete counterexample input
(bob is an Employee-pattern name, ann_x a Student-pattern name). -/
theorem c5_witness :
    update cfg0 clBobAruba "bob" "ann_x" "False" "1" "1" "Ann" "Ann A" "A" "ADM"
      "D0123" "xid" "Art" "bc" "note" =
      ⟨.ok "ERROR: can't rename users across different OUs",
       [Call.bind, .search cfg0.baseDN .subtree "cn=bob" ["dn"]]⟩ :=
  c5_cross_category_no_mutation cfg0 clBobAruba "bob" "ann_x" "False" "1" "1" "Ann"
    "Ann A" "A" "ADM" "D0123" "xid" "Art" "bc" "note" (by decide) rfl
    [⟨"cn=bob,ou=Employees,o=DA",
      [("businessCategory", ["Aruba-User-Role = \"staff\"", "unrelated=1"]),
       ("loginDisabled", ["FALSE"])]⟩]
    rfl (by decide) (by decide)

/-- C7: an Update (no rename) on an existing user whose businessCategory
values mix role-marker matches and unrelated values deletes exactly the
marker-matching values, then applies the replace list whose final element
adds the newly supplied role value; non-matching values get no delete. -/
theorem c7_update_replaces_role_marker (cfg : Config) (cl : Client)
    (username loginDisabled uidNumber gidNumber givenName fullName sn employeeType
      dNumber x500UniqueIdentifier ou businessCategory description : String)
    (hfields : ∀ p ∈ updateParams username username loginDisabled uidNumber gidNumber
      givenName fullName sn employeeType dNumber x500UniqueIdentifier ou
      businessCategory description, p.2 ≠ "")
    (hbind : cl.bindOk = true)
    (e : Entry) (rest : List Entry)
    (hs : cl.searchRes ("cn=" ++ username) = some (e :: rest))
    (vals : List String)
    (hbc : lookupAttr e.attrs "businessCategory" = some vals)
    (hmod : ∀ d m, cl.modifyOk d m = true) :
    update cfg cl username username loginDisabled uidNumber gidNumber givenName
      fullName sn employeeType dNumber x500UniqueIdentifier ou businessCategory
      description =
      ⟨.ok "SUCCESS: User updated in eDir",
       [Call.bind, .search cfg.baseDN .subtree ("cn=" ++ username) ["dn"],
        .search cfg.baseDN .subtree ("cn=" ++ username) ["businessCategory"]]
       ++ (vals.filter (fun v => pyIn cfg.ARUBAPATTERN v)).map
            (fun v => Call.modify (buildDN cfg username) [⟨.del, "businessCategory", v⟩])
       ++ [Call.modify (buildDN cfg username)
             (updateModList cfg username loginDisabled uidNumber gidNumber givenName
               fullName sn employeeType dNumber x500UniqueIdentifier ou
               businessCategory description),
           Call.unbind]⟩ := by
  simp only [update, firstEmpty_eq_none _ hfields]
  simp [ldapConnect, hbind, findUser, hs, M.bind, updPhase2, updPhase2Body, tryFall,
        ldapSearch, pyIndex, pyGetKey, hbc, delAruba_all_ok cfg cl _ hmod, ldapModify,
        hmod, emit, seqTr]

/-- C7 witness: bob's businessCategory holds an Aruba role marker plus the
value unrelated=1; exactly the marker is deleted, the new role value is
added at the end of the modification list, and unrelated=1 is untouched. -/
theorem c7_witness :
    update cfg0 clBobAruba "bob" "bob" "False" "1" "1" "Bob" "Bob B" "B" "ADM"
      "D0123" "xid" "Art" "Aruba-User-Role = \"faculty\"" "note" =
      ⟨.ok "SUCCESS: User updated in eDir",
       [Call.bind, .search "o=DA" .subtree "cn=bob" ["dn"],
        .search "o=DA" .subtree "cn=bob" ["businessCategory"]]
       ++ [Call.modify "cn=bob,ou=Employees,o=DA"
             [⟨.del, "businessCategory", "Aruba-User-Role = \"staff\""⟩]]
       ++ [Call.modify "cn=bob,ou=Employees,o=DA"
             (updateModList cfg0 "bob" "False" "1" "1" "Bob" "Bob B" "B" "ADM"
               "D0123" "xid" "Art" "Aruba-User-Role = \"faculty\"" "note"),
           Call.unbind]⟩ := by
  have h := c7_update_replaces_role_marker cfg0 clBobAruba "bob" "False" "1" "1"
    "Bob" "Bob B" "B" "ADM" "D0123" "xid" "Art" "Aruba-User-Role = \"faculty\""
    "note" (by decide) rfl
    ⟨"cn=bob,ou=Employees,o=DA",
      [("businessCategory", ["Aruba-User-Role = \"staff\"", "unrelated=1"]),
       ("loginDisabled", ["FALSE"])]⟩
    [] rfl ["Aruba-User-Role = \"staff\"", "unrelated=1"] rfl (fun _ _ => rfl)
  rw [h]
  decide

/-- C1: code bug.  delete on the disabled employee bob hits a KeyError in
delMemberUid (the group entry has no memberUid attribute), i.e. an error
during the mutation phase; the generic handler assigns an Error result but
does not return, so delete still returns the Success string and still
sends the deletion notification mail.  Likewise an update-rename whose
mutation phase hits the same KeyError still sends the rename notification,
continues into the attribute phase, and returns the update Success. -/
theorem c1_mutation_error_still_success :
    delMemberUid cfg0 clBobNoUid "Emp_GeneralMac_Users"
        "cn=Emp_GeneralMac_Users,ou=Resources,o=DA" "bob" =
      ⟨.error .keyError, [.search "o=DA" .subtree "cn=Emp_GeneralMac_Users" ["memberUid"]]⟩ ∧
    (delete cfg0 clBobNoUid "bob").res = .ok "SUCCESS: User deleted from eDir" ∧
    Call.mail "noreply@domain.edu" "ops@domain.edu"
        "eDir user deleted: cn=bob,ou=Employees,o=DA" ∈ (delete cfg0 clBobNoUid "bob").tr ∧
    (update cfg0 clBobNoUid "bob" "carl" "False" "1" "1" "Bob" "Bob B" "B" "ADM"
      "D0123" "xid" "Art" "bc" "note").res = .ok "SUCCESS: User updated in eDir" ∧
    Call.mail "noreply@domain.edu" "ops@domain.edu"
        "eDir user renamed: cn=bob,ou=Employees,o=DA to carl" ∈
      (update cfg0 clBobNoUid "bob" "carl" "False" "1" "1" "Bob" "Bob B" "B" "ADM"
        "D0123" "xid" "Art" "bc" "note").tr := by
  refine ⟨rfl, rfl, ?_, rfl, ?_⟩ <;> decide

/-- C2: code bug.  A Create whose directory mutations succeed but whose
storage-provisioning HTTP trigger fails still returns the Success string:
the provisioning handler assigns the provisioning Error to result but
falls through to the unconditional Success assignment.  The created entry
is indeed left intact (the add call is in the trace and no delete call is
issued). -/
theorem c2_provisioning_error_overwritten :
    (create cfg0 clHttpFail "bob" "False" "1" "1" "John" "John B" "B" "ADM" "D0123"
      "xid" "Art" "bc" "pw" "note").res = .ok "SUCCESS: User added to eDir" ∧
    clHttpFail.httpOk "http://empserver.domain.edu/cgi-bin/getspace.pl?username=bob"
      = false ∧
    (provision clHttpFail "EMP" "bob" "Art").res = .error .ioError ∧
    Call.http "http://empserver.domain.edu/cgi-bin/getspace.pl?username=bob" ∈
      (create cfg0 clHttpFail "bob" "False" "1" "1" "John" "John B" "B" "ADM" "D0123"
        "xid" "Art" "bc" "pw" "note").tr ∧
    Call.add "cn=bob,ou=Employees,o=DA"
        (createAttrs cfg0 "bob" "False" "1" "1" "John" "John B" "B" "ADM" "D0123"
          "xid" "Art" "bc" "pw" "note" "empfs") ∈
      (create cfg0 clHttpFail "bob" "False" "1" "1" "John" "John B" "B" "ADM" "D0123"
        "xid" "Art" "bc" "pw" "note").tr ∧
    ((create cfg0 clHttpFail "bob" "False" "1" "1" "John" "John B" "B" "ADM" "D0123"
        "xid" "Art" "bc" "pw" "note").tr.all
      (fun c => match c with | Call.delete _ => false | _ => true)) = true := by
  refine ⟨rfl, rfl, rfl, ?_, ?_, ?_⟩ <;> decide

/-- C3: code bug.  A Create for a guest-pattern username never reaches a
terminal result: the local variable holding the provisioning server is
assigned on the student and employee branches only, so the truthiness test
on it raises UnboundLocalError on the guest path, escaping create before
the entry add (only the bind and existence search were issued). -/
theorem c3_guest_create_crashes :
    getUserType cfg0 "gst23ab" = "GST" ∧
    create cfg0 clEmpty "gst23ab" "False" "1" "1" "G" "G U" "U" "GST" "D0123" "xid"
        "Guests" "bc" "pw" "note" =
      ⟨.error .unboundLocal, [Call.bind, .search "o=DA" .subtree "cn=gst23ab" ["dn"]]⟩ := by
  exact ⟨rfl, rfl⟩

/-- C4: code bug.  A failed existence-check search makes findUser raise a
NameError (its handler logs but leaves the result variable unbound), which
escapes the action into main's outer handler and aborts the batch: the
failing row gets no outcome record and the following row is never
processed, although that row alone would have produced a record. -/
theorem c4_search_error_aborts_batch :
    (findUser cfg0 clSearchFail "bob").res = .error .nameError ∧
    runBatch cfg0 clSearchFail [rowDelBob, rowBadAction] = [] ∧
    runBatch cfg0 clSearchFail [rowBadAction] =
      [("frobnicate", "x", "ERROR: Unrecognized action")] := by
  exact ⟨rfl, rfl, rfl⟩

end Edir
